import Mathlib

/-!
Verification of the wake-word voice assistant (`voice-assistant-code.py`).

The Python program is shallowly embedded: strings are Lean `String`s,
timestamps are `Nat` (seconds), the external collaborators (microphone,
speech-to-text, text-to-speech, Wikipedia, browser, log file, clock) are
modelled as explicit inputs, and every externally visible side effect is
recorded as an `Event`.  Each definition is a direct translation of the
correspondingly named Python method.
-/

/-! ### Characters and strings: Python `str.lower()` and the `in` operator -/

/-- ASCII lowercasing of one character, as Python's `str.lower()` acts on the
basic-latin range (and as the transcriptions this program sees are ASCII). -/
def lcChar (c : Char) : Char :=
  if 65 ≤ c.toNat ∧ c.toNat ≤ 90 then Char.ofNat (c.toNat + 32) else c

/-- Python `s.lower()`. -/
def lower (s : String) : String :=
  ⟨s.data.map lcChar⟩

/-- Does `needle` start `hay`?  Helper for the substring test. -/
def leadsWith : List Char → List Char → Bool
  | [], _ => true
  | _ :: _, [] => false
  | a :: as, b :: bs => a == b && leadsWith as bs

/-- Does `needle` occur contiguously inside `hay`? -/
def occursIn : List Char → List Char → Bool
  | needle, [] => needle.isEmpty
  | needle, b :: bs => leadsWith needle (b :: bs) || occursIn needle bs

/-- Python's `needle in hay` on strings: contiguous substring containment. -/
def pyIn (needle hay : String) : Bool :=
  occursIn needle.data hay.data

theorem leadsWith_iff (n h : List Char) :
    leadsWith n h = true ↔ ∃ t, n ++ t = h := by
  induction n generalizing h with
  | nil => simp [leadsWith]
  | cons a as ih =>
    cases h with
    | nil => simp [leadsWith]
    | cons b bs =>
      simp only [leadsWith, Bool.and_eq_true, beq_iff_eq, ih, List.cons_append,
        List.cons.injEq]
      constructor
      · rintro ⟨rfl, t, rfl⟩; exact ⟨t, rfl, rfl⟩
      · rintro ⟨t, rfl, rfl⟩; exact ⟨rfl, t, rfl⟩

theorem occursIn_iff (n h : List Char) :
    occursIn n h = true ↔ ∃ pre post, pre ++ n ++ post = h := by
  induction h with
  | nil =>
    simp only [occursIn, List.isEmpty_iff]
    constructor
    · rintro rfl; exact ⟨[], [], rfl⟩
    · rintro ⟨pre, post, hh⟩
      rcases List.append_eq_nil.mp hh with ⟨h1, h2⟩
      exact (List.append_eq_nil.mp h1).2
  | cons b bs ih =>
    simp only [occursIn, Bool.or_eq_true, leadsWith_iff, ih]
    constructor
    · rintro (⟨t, ht⟩ | ⟨pre, post, hp⟩)
      · exact ⟨[], t, by simpa using ht⟩
      · exact ⟨b :: pre, post, by simp [← hp]⟩
    · rintro ⟨pre, post, hh⟩
      cases pre with
      | nil => exact Or.inl ⟨post, by simpa using hh⟩
      | cons c pre' =>
        simp only [List.cons_append, List.cons.injEq] at hh
        exact Or.inr ⟨pre', post, hh.2⟩

/-- `pyIn` is exactly the ∃-decomposition form of substring containment. -/
theorem pyIn_iff (needle hay : String) :
    pyIn needle hay = true ↔
      ∃ pre post, pre ++ needle.data ++ post = hay.data :=
  occursIn_iff needle.data hay.data

theorem lcChar_ofNat_shift (n : Nat) (h1 : 65 ≤ n) (h2 : n ≤ 90) :
    lcChar (Char.ofNat (n + 32)) = Char.ofNat (n + 32) := by
  interval_cases n <;> decide

/-- ASCII lowercasing is idempotent. -/
theorem lcChar_idem (c : Char) : lcChar (lcChar c) = lcChar c := by
  by_cases h : 65 ≤ c.toNat ∧ c.toNat ≤ 90
  · have hc : lcChar c = Char.ofNat (c.toNat + 32) := by
      unfold lcChar; rw [if_pos h]
    rw [hc]
    exact lcChar_ofNat_shift c.toNat h.1 h.2
  · have hc : lcChar c = c := by
      unfold lcChar; rw [if_neg h]
    rw [hc, hc]

/-- Lowercasing a string is idempotent. -/
theorem lower_idem (s : String) : lower (lower s) = lower s := by
  unfold lower
  simp only [List.map_map]
  congr 1
  exact List.map_congr_left fun c _ => lcChar_idem c

/-! ### Data model -/

/-- Observable side effects of the assistant. -/
inductive Event where
  | spoke (text : String)
  | logged (timestamp : Nat) (line : String)
  | openedUrl (url : String)
deriving DecidableEq

/-- `assistant_config.json` contents / the built-in defaults
(`VoiceAssistant._load_config`). -/
structure Config where
  language : String
  log_commands : Bool
  max_wikipedia_sentences : Nat
deriving DecidableEq

/-- The built-in default configuration (lines 76-80 of the source). -/
def defaultConfig : Config :=
  { language := "en-US", log_commands := true, max_wikipedia_sentences := 2 }

/-- Outcome of opening and parsing `assistant_config.json`.  The Python
`except` clause catches exactly `FileNotFoundError` and `json.JSONDecodeError`;
any other exception on open/read (e.g. `PermissionError` for an unreadable
file) is not caught. -/
inductive ConfigReadOutcome where
  | ok (cfg : Config)
  | fileNotFound
  | jsonDecodeError
  | unreadable
deriving DecidableEq

/-- `VoiceAssistant._load_config`: `.error` means an uncaught exception
propagates out of the method. -/
def load_config : ConfigReadOutcome → Except String Config
  | .ok cfg => .ok cfg
  | .fileNotFound => .ok defaultConfig
  | .jsonDecodeError => .ok defaultConfig
  | .unreadable => .error "PermissionError"

/-- `assistant_responses.json` contents (the exact default texts are
irrelevant to the claims, so the catalog is a parameter). -/
structure Responses where
  greetings : List String
  jokes : List String
  quotes : List String
  preferences : List String
  unknown_command : List String

/-- `random.choice`, with the random draw supplied as an index. -/
def choice (l : List String) (i : Nat) : String :=
  l.getD (i % l.length) ""

/-- The mutable session fields of `VoiceAssistant`. -/
structure AssistantState where
  wake_word : String
  timeout : Nat
  is_active : Bool
  last_activation_time : Nat
deriving DecidableEq

/-- `VoiceAssistant.__init__`: stores `wake_word.lower()`, starts inactive
with `last_activation_time = 0`. -/
def initState (wake_word : String) (timeout : Nat) : AssistantState :=
  { wake_word := lower wake_word, timeout := timeout,
    is_active := false, last_activation_time := 0 }

/-! ### Wake-word listening and the timeout check -/

/-- What the speech-recognition stack produced during one
`listen_for_wake_word` poll. -/
inductive Transcription where
  | heard (raw : String)
  | unknownValue
  | requestError
  | waitTimeout
deriving DecidableEq

/-- Result of one `listen_for_wake_word` poll. -/
structure PollResult where
  detected : Bool
  state : AssistantState
  events : List Event
deriving DecidableEq

/-- Lines 165-169: the inactivity-timeout check inside
`listen_for_wake_word`. -/
def timeoutCheck (st : AssistantState) (now : Nat) : PollResult :=
  if st.is_active ∧ now - st.last_activation_time > st.timeout then
    { detected := false, state := { st with is_active := false },
      events := [.spoke "Timing out due to inactivity."] }
  else
    { detected := false, state := st, events := [] }

/-- `VoiceAssistant.listen_for_wake_word`, with the audio/transcription
outcome and the clock as inputs.  On a successful transcription the text is
lowercased and tested for the wake word; detection returns immediately.  The
timeout check runs only on the fall-through paths (no detection, or speech
not understood); a service error or a listen timeout returns before it. -/
def listen_for_wake_word (st : AssistantState) (tr : Transcription)
    (now : Nat) : PollResult :=
  match tr with
  | .heard raw =>
    if pyIn st.wake_word (lower raw) then
      { detected := true, state := st, events := [] }
    else
      timeoutCheck st now
  | .unknownValue => timeoutCheck st now
  | .requestError => { detected := false, state := st, events := [] }
  | .waitTimeout => { detected := false, state := st, events := [] }

/-- Wake-word detection outcome of a poll that heard `raw`. -/
def wakeDetected (st : AssistantState) (raw : String) : Bool :=
  (listen_for_wake_word st (.heard raw) 0).detected

/-- The spec's wording: the configured wake word occurs as a
case-insensitive contiguous substring of the utterance. -/
def caseInsensitiveOccurs (ww utterance : String) : Prop :=
  ∃ pre post, pre ++ (lower ww).data ++ post = (lower utterance).data

/-! ### Command handlers -/

/-- Outcome of `wikipedia.summary(topic, sentences=n)`. -/
inductive WikiResult where
  | success (summary : String)
  | disambiguationError
  | pageError
  | otherError

def msg_ambiguous : String := "The topic is ambiguous, please be more specific."
def msg_no_page : String := "Unfortunately, there is no page with that title."
def msg_wiki_failed : String := "Sorry, something went wrong with the Wikipedia search."

/-- `VoiceAssistant._search_wikipedia`, with the Wikipedia collaborator as a
function from the requested sentence bound to an outcome.  Every outcome is
handled; the method never lets an exception escape (total function, no
`Except`). -/
def search_wikipedia (cfg : Config) (wiki : Nat → WikiResult) : List Event :=
  match wiki cfg.max_wikipedia_sentences with
  | .success summary => [.spoke summary]
  | .disambiguationError => [.spoke msg_ambiguous]
  | .pageError => [.spoke msg_no_page]
  | .otherError => [.spoke msg_wiki_failed]

/-- `VoiceAssistant._web_search`. -/
def web_search (query : String) : List Event :=
  [.spoke ("Searching for " ++ query ++ " on Google."),
   .openedUrl ("https://www.google.com/search?q=" ++ query),
   .spoke "Here are the search results."]

/-- `VoiceAssistant._change_wake_word`: prompt, sub-listen, and update the
wake word (lowercased) only when the reply is non-empty. -/
def change_wake_word (st : AssistantState) (reply : String) :
    AssistantState × List Event :=
  if reply ≠ "" then
    ({ st with wake_word := lower reply },
     [.spoke "What would you like to set as the new wake word?",
      .spoke ("Wake word changed to " ++ reply)])
  else
    (st, [.spoke "What would you like to set as the new wake word?"])

/-- `VoiceAssistant._log_command`: appends a timestamped line, a write
failure (`logOk = false`) is swallowed. -/
def log_command (now : Nat) (logOk : Bool) (cmd : String) : List Event :=
  if logOk then [.logged now cmd] else []

/-- External inputs consumed during one `process_command` call: the clock,
whether the log write succeeds, the result of any nested
`listen_for_command`, the Wikipedia collaborator, the random draw, and the
formatted clock/calendar strings. -/
structure CmdEnv where
  now : Nat
  logOk : Bool
  subListen : String
  wiki : Nat → WikiResult
  pick : Nat
  timeStr : String
  dateStr : String

/-- Result of `process_command`: new state, emitted events, and the boolean
the method returns (`True` = keep looping). -/
structure CmdResult where
  state : AssistantState
  events : List Event
  cont : Bool

/-- `VoiceAssistant.process_command`, translated clause by clause from the
`if/elif` chain (lines 214-279). -/
def process_command (cfg : Config) (resp : Responses) (st : AssistantState)
    (q : String) (env : CmdEnv) : CmdResult :=
  let st1 := { st with last_activation_time := env.now }
  let logEvs := if cfg.log_commands then log_command env.now env.logOk q else []
  if pyIn "exit" q || pyIn "goodbye" q || pyIn "bye" q then
    { state := { st1 with is_active := false },
      events := logEvs ++ [.spoke "Goodbye!"], cont := true }
  else if pyIn "sleep" q || pyIn "deactivate" q then
    { state := { st1 with is_active := false },
      events := logEvs ++
        [.spoke "Going to sleep. Say the wake word to activate me again."],
      cont := true }
  else if pyIn "wikipedia" q then
    { state := st1,
      events := logEvs ++ [.spoke "What would you like to search on Wikipedia?"]
        ++ (if env.subListen ≠ "" then search_wikipedia cfg env.wiki else []),
      cont := true }
  else if pyIn "time" q then
    { state := st1,
      events := logEvs ++ [.spoke ("The current time is " ++ env.timeStr ++ ".")],
      cont := true }
  else if pyIn "date" q then
    { state := st1,
      events := logEvs ++ [.spoke ("Today\x27s date is " ++ env.dateStr ++ ".")],
      cont := true }
  else if pyIn "how are you" q then
    { state := st1, events := logEvs ++ [.spoke (choice resp.greetings env.pick)],
      cont := true }
  else if pyIn "what is your name" q || pyIn "who are you" q then
    { state := st1,
      events := logEvs ++
        [.spoke "I am your voice assistant, activated by saying the wake word."],
      cont := true }
  else if pyIn "search" q then
    { state := st1,
      events := logEvs ++ [.spoke "What do you want to search for on Google?"]
        ++ (if env.subListen ≠ "" then web_search env.subListen else []),
      cont := true }
  else if pyIn "tell me a joke" q || pyIn "joke" q then
    { state := st1, events := logEvs ++ [.spoke (choice resp.jokes env.pick)],
      cont := true }
  else if pyIn "give me a quote" q || pyIn "quote" q then
    { state := st1, events := logEvs ++ [.spoke (choice resp.quotes env.pick)],
      cont := true }
  else if pyIn "what do you like to do" q || pyIn "your hobbies" q then
    { state := st1, events := logEvs ++ [.spoke (choice resp.preferences env.pick)],
      cont := true }
  else if pyIn "change wake word" q then
    { state := (change_wake_word st1 env.subListen).1,
      events := logEvs ++ (change_wake_word st1 env.subListen).2, cont := true }
  else
    { state := st1, events := logEvs ++ [.spoke (choice resp.unknown_command env.pick)],
      cont := true }

/-! ### Intent classification (the dispatch order) -/

/-- The thirteen intents of the dispatcher, in source order. -/
inductive Intent where
  | exit | sleep | wikipedia | time | date | howAreYou | identity
  | search | joke | quote | hobbies | changeWakeWord | unknown
deriving DecidableEq

/-- Which branch of the `if/elif` chain fires: the same tests, in the same
order, as `process_command`. -/
def intentOf (q : String) : Intent :=
  if pyIn "exit" q || pyIn "goodbye" q || pyIn "bye" q then .exit
  else if pyIn "sleep" q || pyIn "deactivate" q then .sleep
  else if pyIn "wikipedia" q then .wikipedia
  else if pyIn "time" q then .time
  else if pyIn "date" q then .date
  else if pyIn "how are you" q then .howAreYou
  else if pyIn "what is your name" q || pyIn "who are you" q then .identity
  else if pyIn "search" q then .search
  else if pyIn "tell me a joke" q || pyIn "joke" q then .joke
  else if pyIn "give me a quote" q || pyIn "quote" q then .quote
  else if pyIn "what do you like to do" q || pyIn "your hobbies" q then .hobbies
  else if pyIn "change wake word" q then .changeWakeWord
  else .unknown

/-- The dispatch table as an ordered list of (predicate, intent) pairs, in
the order the claim lists them. -/
def intentTable : List ((String → Bool) × Intent) :=
  [(fun q => pyIn "exit" q || pyIn "goodbye" q || pyIn "bye" q, .exit),
   (fun q => pyIn "sleep" q || pyIn "deactivate" q, .sleep),
   (fun q => pyIn "wikipedia" q, .wikipedia),
   (fun q => pyIn "time" q, .time),
   (fun q => pyIn "date" q, .date),
   (fun q => pyIn "how are you" q, .howAreYou),
   (fun q => pyIn "what is your name" q || pyIn "who are you" q, .identity),
   (fun q => pyIn "search" q, .search),
   (fun q => pyIn "tell me a joke" q || pyIn "joke" q, .joke),
   (fun q => pyIn "give me a quote" q || pyIn "quote" q, .quote),
   (fun q => pyIn "what do you like to do" q || pyIn "your hobbies" q, .hobbies),
   (fun q => pyIn "change wake word" q, .changeWakeWord)]

/-- First-match-wins selection over an ordered table, falling back to
`unknown`. -/
def firstMatch (q : String) : List ((String → Bool) × Intent) → Intent
  | [] => .unknown
  | p :: rest => if p.1 q then p.2 else firstMatch q rest

/-- The intent selected by scanning the table in listed order. -/
def firstMatchIntent (q : String) : Intent :=
  firstMatch q intentTable

/-- State produced by the handler of one intent (after the common prelude
has set `last_activation_time`). -/
def handlerState (st1 : AssistantState) (env : CmdEnv) : Intent → AssistantState
  | .exit => { st1 with is_active := false }
  | .sleep => { st1 with is_active := false }
  | .changeWakeWord => (change_wake_word st1 env.subListen).1
  | _ => st1

/-- Events emitted by the handler of one intent (log events excluded). -/
def handlerEvents (cfg : Config) (resp : Responses) (env : CmdEnv) :
    Intent → List Event
  | .exit => [.spoke "Goodbye!"]
  | .sleep => [.spoke "Going to sleep. Say the wake word to activate me again."]
  | .wikipedia => [.spoke "What would you like to search on Wikipedia?"]
      ++ (if env.subListen ≠ "" then search_wikipedia cfg env.wiki else [])
  | .time => [.spoke ("The current time is " ++ env.timeStr ++ ".")]
  | .date => [.spoke ("Today\x27s date is " ++ env.dateStr ++ ".")]
  | .howAreYou => [.spoke (choice resp.greetings env.pick)]
  | .identity => [.spoke "I am your voice assistant, activated by saying the wake word."]
  | .search => [.spoke "What do you want to search for on Google?"]
      ++ (if env.subListen ≠ "" then web_search env.subListen else [])
  | .joke => [.spoke (choice resp.jokes env.pick)]
  | .quote => [.spoke (choice resp.quotes env.pick)]
  | .hobbies => [.spoke (choice resp.preferences env.pick)]
  | .changeWakeWord => [.spoke "What would you like to set as the new wake word?"]
      ++ (if env.subListen ≠ "" then
            [.spoke ("Wake word changed to " ++ env.subListen)] else [])
  | .unknown => [.spoke (choice resp.unknown_command env.pick)]

theorem change_wake_word_snd (st : AssistantState) (r : String) :
    (change_wake_word st r).2 =
      [.spoke "What would you like to set as the new wake word?"]
        ++ (if r ≠ "" then [.spoke ("Wake word changed to " ++ r)] else []) := by
  unfold change_wake_word
  split_ifs <;> rfl

set_option maxHeartbeats 2000000 in
/-- `process_command` decomposed: the common prelude (reset the activation
timestamp, write the log entry) followed by the handler of the selected
intent. -/
theorem process_command_decomp (cfg : Config) (resp : Responses)
    (st : AssistantState) (q : String) (env : CmdEnv) :
    process_command cfg resp st q env =
      { state := handlerState { st with last_activation_time := env.now } env
          (intentOf q),
        events := (if cfg.log_commands && env.logOk
            then [Event.logged env.now q] else [])
          ++ handlerEvents cfg resp env (intentOf q),
        cont := true } := by
  have hlog : (if cfg.log_commands then log_command env.now env.logOk q else [])
      = (if cfg.log_commands && env.logOk then [Event.logged env.now q] else []) := by
    cases hc : cfg.log_commands <;> cases ho : env.logOk <;>
      simp [log_command, hc, ho]
  simp only [process_command, hlog, intentOf]
  by_cases h1 : (pyIn "exit" q || pyIn "goodbye" q || pyIn "bye" q) = true
  · simp [h1, handlerState, handlerEvents, change_wake_word_snd]
  by_cases h2 : (pyIn "sleep" q || pyIn "deactivate" q) = true
  · simp [h1, h2, handlerState, handlerEvents, change_wake_word_snd]
  by_cases h3 : pyIn "wikipedia" q = true
  · simp [h1, h2, h3, handlerState, handlerEvents, change_wake_word_snd]
  by_cases h4 : pyIn "time" q = true
  · simp [h1, h2, h3, h4, handlerState, handlerEvents, change_wake_word_snd]
  by_cases h5 : pyIn "date" q = true
  · simp [h1, h2, h3, h4, h5, handlerState, handlerEvents, change_wake_word_snd]
  by_cases h6 : pyIn "how are you" q = true
  · simp [h1, h2, h3, h4, h5, h6, handlerState, handlerEvents, change_wake_word_snd]
  by_cases h7 : (pyIn "what is your name" q || pyIn "who are you" q) = true
  · simp [h1, h2, h3, h4, h5, h6, h7, handlerState, handlerEvents, change_wake_word_snd]
  by_cases h8 : pyIn "search" q = true
  · simp [h1, h2, h3, h4, h5, h6, h7, h8, handlerState, handlerEvents, change_wake_word_snd]
  by_cases h9 : (pyIn "tell me a joke" q || pyIn "joke" q) = true
  · simp [h1, h2, h3, h4, h5, h6, h7, h8, h9, handlerState, handlerEvents, change_wake_word_snd]
  by_cases h10 : (pyIn "give me a quote" q || pyIn "quote" q) = true
  · simp [h1, h2, h3, h4, h5, h6, h7, h8, h9, h10, handlerState, handlerEvents, change_wake_word_snd]
  by_cases h11 : (pyIn "what do you like to do" q || pyIn "your hobbies" q) = true
  · simp [h1, h2, h3, h4, h5, h6, h7, h8, h9, h10, h11, handlerState, handlerEvents, change_wake_word_snd]
  by_cases h12 : pyIn "change wake word" q = true
  · simp [h1, h2, h3, h4, h5, h6, h7, h8, h9, h10, h11, h12, handlerState, handlerEvents, change_wake_word_snd]
  simp [h1, h2, h3, h4, h5, h6, h7, h8, h9, h10, h11, h12, handlerState, handlerEvents]

/-! ### The run loop -/

/-- External inputs consumed during one iteration of the `while True` loop in
`VoiceAssistant.run`: the wake-word poll transcription and its clock reading,
the clock reading at activation, the `listen_for_command` result (`""` on any
recognition failure), and the inputs of `process_command`. -/
structure TickEnv where
  tr : Transcription
  nowPoll : Nat
  nowActivate : Nat
  cmd : String
  cenv : CmdEnv

/-- First phase of a loop iteration (lines 355-358): poll for the wake word
only when inactive; on detection become active and stamp the clock. -/
def tickPoll (st : AssistantState) (e : TickEnv) :
    AssistantState × List Event :=
  if st.is_active then (st, [])
  else
    let r := listen_for_wake_word st e.tr e.nowPoll
    if r.detected then
      ({ r.state with is_active := true, last_activation_time := e.nowActivate },
       r.events)
    else (r.state, r.events)

/-- One iteration of the `while True` loop (lines 353-367): poll for the
wake word only when inactive; when active, listen for a command and process
it only when one was transcribed. -/
def tick (cfg : Config) (resp : Responses) (st : AssistantState)
    (e : TickEnv) : AssistantState × List Event :=
  let p1 := tickPoll st e
  if p1.1.is_active then
    if e.cmd ≠ "" then
      let pr := process_command cfg resp p1.1 e.cmd e.cenv
      (pr.state, p1.2 ++ pr.events)
    else p1
  else p1

/-- States the session can be in after construction and any number of
completed loop iterations. -/
inductive Reachable (cfg : Config) (resp : Responses) (w : String) (t : Nat) :
    AssistantState → Prop where
  | init : Reachable cfg resp w t (initState w t)
  | step {st : AssistantState} (e : TickEnv) :
      Reachable cfg resp w t st → Reachable cfg resp w t (tick cfg resp st e).1

/-! ### Helper lemmas and concrete fixtures -/

theorem poll_wake_word (st : AssistantState) (tr : Transcription) (now : Nat) :
    (listen_for_wake_word st tr now).state.wake_word = st.wake_word := by
  cases tr <;> simp only [listen_for_wake_word, timeoutCheck] <;> split_ifs <;> rfl

theorem handlerState_wake_word (st1 : AssistantState) (env : CmdEnv) (i : Intent) :
    (handlerState st1 env i).wake_word = st1.wake_word
      ∨ (handlerState st1 env i).wake_word = lower env.subListen := by
  cases i <;> (simp [handlerState, change_wake_word]; try split_ifs <;> simp)

theorem tickPoll_wake_word (st : AssistantState) (e : TickEnv) :
    (tickPoll st e).1.wake_word = st.wake_word := by
  simp only [tickPoll]
  split_ifs <;> simp [poll_wake_word]

theorem tick_wake_word (cfg : Config) (resp : Responses) (st : AssistantState)
    (e : TickEnv) :
    (tick cfg resp st e).1.wake_word = st.wake_word
      ∨ (tick cfg resp st e).1.wake_word = lower e.cenv.subListen := by
  have hp : ∀ st' : AssistantState,
      (process_command cfg resp st' e.cmd e.cenv).state.wake_word = st'.wake_word
        ∨ (process_command cfg resp st' e.cmd e.cenv).state.wake_word
            = lower e.cenv.subListen := by
    intro st'
    rw [process_command_decomp]
    exact handlerState_wake_word _ _ _
  simp only [tick]
  split_ifs with h1 h2
  · rcases hp (tickPoll st e).1 with h | h
    · exact Or.inl (h.trans (tickPoll_wake_word st e))
    · exact Or.inr h
  · exact Or.inl (tickPoll_wake_word st e)
  · exact Or.inl (tickPoll_wake_word st e)

theorem detected_eq (st : AssistantState) (raw : String) (now : Nat) :
    (listen_for_wake_word st (.heard raw) now).detected
      = pyIn st.wake_word (lower raw) := by
  simp only [listen_for_wake_word, timeoutCheck]
  split_ifs with h1 h2 <;> simp_all

theorem handlerState_last_activation (st1 : AssistantState) (env : CmdEnv)
    (i : Intent) :
    (handlerState st1 env i).last_activation_time = st1.last_activation_time := by
  cases i <;> (simp only [handlerState, change_wake_word]; try split_ifs <;> rfl)

theorem logged_notin_search_wikipedia (ts : Nat) (line : String) (cfg : Config)
    (wiki : Nat → WikiResult) :
    Event.logged ts line ∉ search_wikipedia cfg wiki := by
  unfold search_wikipedia
  cases wiki cfg.max_wikipedia_sentences <;> simp

theorem logged_notin_handlerEvents (ts : Nat) (line : String) (cfg : Config)
    (resp : Responses) (env : CmdEnv) (i : Intent) :
    Event.logged ts line ∉ handlerEvents cfg resp env i := by
  cases i <;>
    simp only [handlerEvents, web_search, List.mem_cons, List.mem_append,
      List.mem_singleton, List.cons_append, List.nil_append] <;>
    (try split_ifs) <;>
    simp_all [logged_notin_search_wikipedia]

/-- Sample response catalog, for concrete instantiations. -/
def sampleResponses : Responses :=
  { greetings := ["Doing great!"], jokes := ["A funny joke."],
    quotes := ["A wise quote."], preferences := ["I like helping."],
    unknown_command := ["I cannot perform that command."] }

/-- Sample `process_command` environment, for concrete instantiations. -/
def sampleCmdEnv : CmdEnv :=
  { now := 0, logOk := true, subListen := "",
    wiki := fun _ => .otherError, pick := 0,
    timeStr := "12:00", dateStr := "2026-10-12" }

/-- A loop-iteration environment in which nothing usable is heard at time
`t`. -/
def idleEnv (t : Nat) : TickEnv :=
  { tr := .unknownValue, nowPoll := t, nowActivate := t, cmd := "",
    cenv := sampleCmdEnv }

/-- A session that has been active since time 5 with a 60-second timeout. -/
def activeState : AssistantState :=
  { wake_word := "hey assistant", timeout := 60, is_active := true,
    last_activation_time := 5 }

/-- A configuration with command logging disabled. -/
def cfgNoLog : Config :=
  { language := "en-US", log_commands := false, max_wikipedia_sentences := 2 }

/-- A wake-word poll reaches the timeout check exactly when the transcription
fell through to it: speech not understood, or text heard that does not
contain the wake word. -/
def reachesTimeoutCheck (st : AssistantState) (tr : Transcription) : Prop :=
  tr = .unknownValue
    ∨ ∃ raw, tr = .heard raw ∧ pyIn st.wake_word (lower raw) = false

/-! ### The claims -/

/-- C3: for every transcribed utterance, wake-word detection returns true iff
the configured wake word occurs as a case-insensitive contiguous substring of
the utterance; with wake word "hey assistant", "ok hey assistant please help"
is detected and "hey assist" is not. -/
theorem c3_wake_word_detection_iff_substring (w raw : String)
    (st : AssistantState) (now : Nat) (hw : st.wake_word = lower w) :
    ((listen_for_wake_word st (.heard raw) now).detected = true
        ↔ caseInsensitiveOccurs w raw)
      ∧ wakeDetected (initState "hey assistant" 60)
          "ok hey assistant please help" = true
      ∧ wakeDetected (initState "hey assistant" 60) "hey assist" = false := by
  refine ⟨?_, by decide, by decide⟩
  rw [detected_eq, hw]
  exact pyIn_iff (lower w) (lower raw)

theorem c3_witness :
    ((listen_for_wake_word (initState "hey assistant" 60)
        (.heard "ok hey assistant please help") 0).detected = true
        ↔ caseInsensitiveOccurs "hey assistant" "ok hey assistant please help")
      ∧ wakeDetected (initState "hey assistant" 60)
          "ok hey assistant please help" = true
      ∧ wakeDetected (initState "hey assistant" 60) "hey assist" = false :=
  c3_wake_word_detection_iff_substring "hey assistant"
    "ok hey assistant please help" (initState "hey assistant" 60) 0 rfl

/-- C2: the dispatcher behaves as the first matching intent of the fixed
ordered table (first match wins), and "tell me a joke then exit" is handled
by the exit intent, not the joke intent. -/
theorem c2_dispatch_first_match_wins (cfg : Config) (resp : Responses)
    (st : AssistantState) (q : String) (env : CmdEnv) :
    process_command cfg resp st q env
        = { state := handlerState { st with last_activation_time := env.now }
              env (intentOf q),
            events := (if cfg.log_commands && env.logOk
                then [Event.logged env.now q] else [])
              ++ handlerEvents cfg resp env (intentOf q),
            cont := true }
      ∧ intentOf q = firstMatchIntent q
      ∧ intentOf "tell me a joke then exit" = Intent.exit := by
  refine ⟨process_command_decomp cfg resp st q env, ?_, by decide⟩
  simp only [firstMatchIntent, intentTable, firstMatch, intentOf]

/-- C8: any utterance containing "exit", "goodbye" or "bye" makes the
dispatcher speak a farewell, set the session inactive, and return the
continue signal (the loop keeps polling; the process does not terminate). -/
theorem c8_exit_speaks_farewell_and_continues (cfg : Config) (resp : Responses)
    (st : AssistantState) (q : String) (env : CmdEnv)
    (h : (pyIn "exit" q || pyIn "goodbye" q || pyIn "bye" q) = true) :
    (process_command cfg resp st q env).state.is_active = false
      ∧ (process_command cfg resp st q env).cont = true
      ∧ Event.spoke "Goodbye!" ∈ (process_command cfg resp st q env).events := by
  have hi : intentOf q = Intent.exit := by
    unfold intentOf
    rw [if_pos h]
  rw [process_command_decomp, hi]
  refine ⟨rfl, rfl, ?_⟩
  simp [handlerEvents]

theorem c8_witness :
    (process_command defaultConfig sampleResponses (initState "hey assistant" 60)
        "goodbye" sampleCmdEnv).state.is_active = false
      ∧ (process_command defaultConfig sampleResponses (initState "hey assistant" 60)
          "goodbye" sampleCmdEnv).cont = true
      ∧ Event.spoke "Goodbye!" ∈ (process_command defaultConfig sampleResponses
          (initState "hey assistant" 60) "goodbye" sampleCmdEnv).events :=
  c8_exit_speaks_farewell_and_continues defaultConfig sampleResponses
    (initState "hey assistant" 60) "goodbye" sampleCmdEnv (by decide)

/-- C4 counterexample to the unqualified claim: with `timeout_seconds = 60`
and the session active since `t0 = 5`, a poll of the wake-word listener at
`t0 + 61` in which the listen attempt times out in silence
(`sr.WaitTimeoutError`, line 172) returns before the timeout check: the
session stays active and no timeout notice is spoken. -/
theorem c4_counterexample :
    (listen_for_wake_word activeState .waitTimeout (5 + 61)).state.is_active = true
      ∧ (listen_for_wake_word activeState .waitTimeout (5 + 61)).events = [] :=
  ⟨rfl, rfl⟩

/-- C4 (amended): with `timeout_seconds = 60` and an active session since
`t0`, a wake-word poll at `t0 + 61` that reaches the timeout check (speech
not understood, or text heard without the wake word) deactivates the session
and speaks the timeout notice exactly once; a poll whose listen attempt
times out in silence or whose recognition service fails returns early,
leaving the session active with no notice; and a poll at `t0 + 59` leaves
the session active and speaks no timeout notice (strict guard), whatever the
transcription outcome. -/
theorem c4_timeout_fires_strictly_after_60 (st : AssistantState) (t0 : Nat)
    (tr : Transcription) (ht : st.timeout = 60) (ha : st.is_active = true)
    (hl : st.last_activation_time = t0) :
    (reachesTimeoutCheck st tr →
        (listen_for_wake_word st tr (t0 + 61)).state.is_active = false
          ∧ (listen_for_wake_word st tr (t0 + 61)).events
              = [Event.spoke "Timing out due to inactivity."])
      ∧ ((listen_for_wake_word st tr (t0 + 59)).state.is_active = true
          ∧ Event.spoke "Timing out due to inactivity."
              ∉ (listen_for_wake_word st tr (t0 + 59)).events)
      ∧ (tr = .waitTimeout ∨ tr = .requestError →
          (listen_for_wake_word st tr (t0 + 61)).state = st
            ∧ (listen_for_wake_word st tr (t0 + 61)).events = []) := by
  have hg61 : (timeoutCheck st (t0 + 61))
      = { detected := false, state := { st with is_active := false },
          events := [Event.spoke "Timing out due to inactivity."] } := by
    unfold timeoutCheck
    rw [if_pos ⟨ha, by rw [hl, ht]; omega⟩]
  have hg59 : timeoutCheck st (t0 + 59)
      = { detected := false, state := st, events := [] } := by
    unfold timeoutCheck
    rw [if_neg]
    rintro ⟨-, hgt⟩
    rw [hl, ht] at hgt
    omega
  refine ⟨?_, ?_, ?_⟩
  · rintro (rfl | ⟨raw, rfl, hpy⟩)
    · simp [listen_for_wake_word, hg61]
    · simp [listen_for_wake_word, hpy, hg61]
  · cases tr <;> simp only [listen_for_wake_word, hg59] <;> try simp [ha]
    case heard raw =>
      split_ifs with h
      · simp [ha]
      · simp [ha]
  · rintro (rfl | rfl) <;> exact ⟨rfl, rfl⟩

theorem c4_witness :
    ((listen_for_wake_word activeState .unknownValue (5 + 61)).state.is_active = false
        ∧ (listen_for_wake_word activeState .unknownValue (5 + 61)).events
            = [Event.spoke "Timing out due to inactivity."])
      ∧ ((listen_for_wake_word activeState .unknownValue (5 + 59)).state.is_active = true
          ∧ Event.spoke "Timing out due to inactivity."
              ∉ (listen_for_wake_word activeState .unknownValue (5 + 59)).events) :=
  ⟨(c4_timeout_fires_strictly_after_60 activeState 5 .unknownValue rfl rfl rfl).1
      (Or.inl rfl),
   (c4_timeout_fires_strictly_after_60 activeState 5 .unknownValue rfl rfl rfl).2.1⟩

/-- C1: evidence against the claim (and against the spec's intent).  While
the session is active the run loop never calls `listen_for_wake_word` — the
only place the timeout is evaluated — so a loop iteration of an active
session that hears no usable command is the identity on the state and emits
nothing: the session never returns to inactive, no matter how much time has
passed.  Concretely, a session active since time 0 with a 60-second timeout
is still active after an iteration at time 10000. -/
theorem c1_active_session_never_times_out :
    (∀ (cfg : Config) (resp : Responses) (st : AssistantState) (e : TickEnv),
        st.is_active = true → e.cmd = "" → tick cfg resp st e = (st, []))
      ∧ (tick defaultConfig sampleResponses
            { wake_word := "hey assistant", timeout := 60, is_active := true,
              last_activation_time := 0 } (idleEnv 10000)).1.is_active = true
      ∧ 10000 - 0 > 60 := by
  refine ⟨?_, by decide, by decide⟩
  intro cfg resp st e ha hc
  simp [tick, tickPoll, ha, hc]

theorem c1_witness :
    tick defaultConfig sampleResponses activeState (idleEnv 10000)
      = (activeState, []) :=
  (c1_active_session_never_times_out).1 defaultConfig sampleResponses
    activeState (idleEnv 10000) rfl rfl

/-- C5 counterexample: an unreadable (but present) configuration source, e.g.
one whose `open` raises `PermissionError`, is not caught by the
`except (FileNotFoundError, json.JSONDecodeError)` clause: loading raises
instead of returning the defaults. -/
theorem c5_counterexample :
    load_config ConfigReadOutcome.unreadable = Except.error "PermissionError" :=
  rfl

/-- C5 (amended): for a configuration source that is missing, or whose
content fails JSON parsing, loading returns exactly the built-in defaults
(language "en-US", log_commands true, max_wikipedia_sentences 2) and raises
no error. -/
theorem c5_missing_or_malformed_config_defaults (o : ConfigReadOutcome)
    (h : o = ConfigReadOutcome.fileNotFound ∨ o = ConfigReadOutcome.jsonDecodeError) :
    load_config o = Except.ok defaultConfig
      ∧ defaultConfig.language = "en-US"
      ∧ defaultConfig.log_commands = true
      ∧ defaultConfig.max_wikipedia_sentences = 2 := by
  rcases h with rfl | rfl <;> exact ⟨rfl, rfl, rfl, rfl⟩

theorem c5_witness :
    load_config ConfigReadOutcome.fileNotFound = Except.ok defaultConfig
      ∧ defaultConfig.language = "en-US"
      ∧ defaultConfig.log_commands = true
      ∧ defaultConfig.max_wikipedia_sentences = 2 :=
  c5_missing_or_malformed_config_defaults ConfigReadOutcome.fileNotFound
    (Or.inl rfl)

/-- C7: the change-wake-word flow updates the stored wake word (lowercased)
exactly when the sub-listened reply is non-empty, and detection afterwards
uses the new word: after changing to "computer", "ok computer do this" is
detected and an utterance containing only the old wake word is not. -/
theorem c7_change_wake_word_round_trip :
    (∀ (st : AssistantState) (r : String), r ≠ "" →
        (change_wake_word st r).1.wake_word = lower r)
      ∧ (∀ st : AssistantState, (change_wake_word st "").1 = st)
      ∧ wakeDetected (change_wake_word (initState "hey assistant" 60) "computer").1
          "ok computer do this" = true
      ∧ wakeDetected (change_wake_word (initState "hey assistant" 60) "computer").1
          "hey assistant are you there" = false := by
  refine ⟨?_, ?_, by decide, by decide⟩
  · intro st r hr
    simp [change_wake_word, hr]
  · intro st
    simp [change_wake_word]

theorem c7_witness :
    (change_wake_word (initState "hey assistant" 60) "computer").1.wake_word
      = lower "computer" :=
  c7_change_wake_word_round_trip.1 (initState "hey assistant" 60) "computer"
    (by decide)

/-- C9: each encyclopedia-lookup failure outcome (ambiguous topic, page not
found, any other failure) is mapped to its own distinct spoken message, the
success outcome speaks exactly the summary the service returns for the bound
`max_wikipedia_sentences`, and the handler is total — no outcome escapes as
an exception. -/
theorem c9_wikipedia_outcome_messages (cfg : Config) (wiki : Nat → WikiResult) :
    (∀ s, wiki cfg.max_wikipedia_sentences = WikiResult.success s →
        search_wikipedia cfg wiki = [Event.spoke s])
      ∧ (wiki cfg.max_wikipedia_sentences = WikiResult.disambiguationError →
          search_wikipedia cfg wiki = [Event.spoke msg_ambiguous])
      ∧ (wiki cfg.max_wikipedia_sentences = WikiResult.pageError →
          search_wikipedia cfg wiki = [Event.spoke msg_no_page])
      ∧ (wiki cfg.max_wikipedia_sentences = WikiResult.otherError →
          search_wikipedia cfg wiki = [Event.spoke msg_wiki_failed])
      ∧ msg_ambiguous ≠ msg_no_page
      ∧ msg_ambiguous ≠ msg_wiki_failed
      ∧ msg_no_page ≠ msg_wiki_failed := by
  refine ⟨?_, ?_, ?_, ?_, by decide, by decide, by decide⟩ <;>
    first
      | (intro s h; unfold search_wikipedia; rw [h])
      | (intro h; unfold search_wikipedia; rw [h])

theorem c9_witness :
    search_wikipedia defaultConfig (fun _ => WikiResult.disambiguationError)
      = [Event.spoke msg_ambiguous] :=
  (c9_wikipedia_outcome_messages defaultConfig
      (fun _ => WikiResult.disambiguationError)).2.1 rfl

/-- C6: every `process_command` call, whatever intent matches, first resets
`last_activation_time` to the current time and then — exactly when
`log_commands` is enabled and the write succeeds — appends the raw utterance
with a timestamp before the handler's own events; the log-write outcome and
the logging flag change nothing else (handler events and state do not read
them), and with `log_commands = false` no log entry ever appears. -/
theorem c6_prelude_resets_time_and_logs (cfg : Config) (resp : Responses)
    (st : AssistantState) (q : String) (env : CmdEnv) :
    (process_command cfg resp st q env).state.last_activation_time = env.now
      ∧ (process_command cfg resp st q env).events
          = (if cfg.log_commands && env.logOk
              then [Event.logged env.now q] else [])
            ++ handlerEvents cfg resp env (intentOf q)
      ∧ (∀ b : Bool,
          handlerEvents cfg resp { env with logOk := b } (intentOf q)
              = handlerEvents cfg resp env (intentOf q)
            ∧ handlerState { st with last_activation_time := env.now }
                { env with logOk := b } (intentOf q)
              = handlerState { st with last_activation_time := env.now }
                  env (intentOf q))
      ∧ (cfg.log_commands = false →
          ∀ (ts : Nat) (line : String),
            Event.logged ts line ∉ (process_command cfg resp st q env).events) := by
  refine ⟨?_, ?_, ?_, ?_⟩
  · rw [process_command_decomp]
    exact handlerState_last_activation _ _ _
  · rw [process_command_decomp]
  · intro b
    constructor <;> cases intentOf q <;> rfl
  · intro hlc ts line
    rw [process_command_decomp]
    simp [hlc, logged_notin_handlerEvents]

theorem c6_witness :
    Event.logged 3 "x" ∉ (process_command cfgNoLog sampleResponses
      (initState "hey assistant" 60) "hello" sampleCmdEnv).events :=
  (c6_prelude_resets_time_and_logs cfgNoLog sampleResponses
      (initState "hey assistant" 60) "hello" sampleCmdEnv).2.2.2 rfl 3 "x"

/-- C10: in every reachable session state the stored wake word is a
lowercase string (a fixed point of lowercasing): it is lowercased at
construction, lowercased again on every change via the change-wake-word
flow, and no other transition touches it — which is what makes the
lowercase-on-lowercase comparison in detection case-insensitive. -/
theorem c10_wake_word_invariant_lowercase (cfg : Config) (resp : Responses)
    (w : String) (t : Nat) (st : AssistantState)
    (h : Reachable cfg resp w t st) :
    lower st.wake_word = st.wake_word := by
  induction h with
  | init => exact lower_idem w
  | step e _ ih =>
    rcases tick_wake_word cfg resp _ e with h1 | h1 <;> rw [h1]
    · exact ih
    · exact lower_idem _

theorem c10_witness :
    lower (initState "Hey Assistant" 60).wake_word
      = (initState "Hey Assistant" 60).wake_word :=
  c10_wake_word_invariant_lowercase defaultConfig sampleResponses
    "Hey Assistant" 60 (initState "Hey Assistant" 60) Reachable.init
